import Mathlib

/-!
Verification development for the recording orchestrator of `src/src/record/index.ts`
(the `Recorder` class and the module-level `record` entry point).

The embedding is a shallow state-passing translation of the orchestration code:

* `EventData` / `EventWithTime` model the tagged event union (`EventType`,
  `IncrementalSource` and `eventWithTime` of `src/types`, which is referenced by the
  orchestrator; only the tags and fields the orchestrator inspects are carried).
* `MutBuffer` models one entry of the module-level `mutationBuffers` array of
  `src/record/observer.ts`.  That file is not under `src/`; the `frozen`/`locked`
  flags and the `freeze`/`unfreeze`/`lock`/`unlock`/`isFrozen` methods invoked by the
  orchestrator are modelled from the spec (Mutation Buffer state machine, spec §4.2).
* `RState` is the mutable state the orchestrator closes over
  (`lastFullSnapshotEvent`, `incrementalSnapshotCount`, `mutationBuffers`,
  `mirror.map`, the stream of events handed to `onEmit`, the `console.warn` calls,
  and the `recording` field of the class).  `RState.trace` is an instrumentation
  field: every primitive side-effecting step appends one `Action`, in source order,
  so that ordering claims can be stated; it carries no information used by control
  flow.
* `Env` models the ambient browser environment read during one synchronous call:
  `Date.now()`, the result of the external `snapshot` serializer, `window.location`,
  viewport size, scroll offsets and `document.readyState`.
* Fallible code (JS `throw`, and the TypeError raised by reading a property of
  `undefined`) is modelled with `Except String`.

The optional `packFn` of the options maps events into an opaque consumer type `T`
and is a reversible transform (spec §6); it is not modelled, so `emitted` records
the events handed to `onEmit` directly.
-/

namespace RrwebRecord

/-- The `IncrementalSource` tags of `src/types` that the orchestrator constructs or
inspects (`wrappedEmit` tests `e.data.source === IncrementalSource.Mutation`). -/
inductive IncrementalSource where
  | mutation
  | mouseMove
  | mouseInteraction
  | scroll
  | viewportResize
  | inputChange
  | touchMove
  | mediaInteraction
  | styleSheetRule
  | canvasMutation
  | font
  | log
  deriving DecidableEq

/-- The event union (`EventType` plus the payload fields the orchestrator reads or
builds): `DomContentLoaded`, `Load`, `FullSnapshot` (node tree id and initial scroll
offset), `IncrementalSnapshot` (its source tag), `Meta` (href, width, height) and
`Custom` (tag and payload). -/
inductive EventData where
  | domContentLoaded
  | load
  | fullSnapshot (node : Nat) (offsetLeft offsetTop : Int)
  | incrementalSnapshot (source : IncrementalSource)
  | meta (href : String) (width height : Int)
  | custom (tag : String) (payload : String)
  deriving DecidableEq

/-- A wrapped event: `wrapEvent` attaches `timestamp: Date.now()` to an event. -/
structure EventWithTime where
  data : EventData
  timestamp : Int
  deriving DecidableEq

/-- Tests `e.type === EventType.FullSnapshot`. -/
def EventData.isFullSnapshot : EventData → Bool
  | .fullSnapshot _ _ _ => true
  | _ => false

/-- Tests `e.type === EventType.IncrementalSnapshot`. -/
def EventData.isIncremental : EventData → Bool
  | .incrementalSnapshot _ => true
  | _ => false

/-- Tests `e.type === EventType.IncrementalSnapshot && e.data.source === IncrementalSource.Mutation`. -/
def EventData.isMutationIncremental : EventData → Bool
  | .incrementalSnapshot .mutation => true
  | _ => false

/-- Modelled from the spec: one Mutation Buffer of `src/record/observer.ts`
(file not under `src/`).  Spec §4.2 gives the state machine `active ⇄ paused`
(here `frozen`) and, while active, `unlocked ⇄ locked`; the orchestrator only
calls `isFrozen`, `freeze`, `unfreeze`, `lock` and `unlock` on it. -/
structure MutBuffer where
  frozen : Bool
  locked : Bool
  deriving DecidableEq

/-- Modelled from the spec: `buf.unfreeze()` leaves the paused state. -/
def MutBuffer.unfreeze (b : MutBuffer) : MutBuffer := { b with frozen := false }

/-- Modelled from the spec: `buf.freeze()` enters the paused state. -/
def MutBuffer.freeze (b : MutBuffer) : MutBuffer := { b with frozen := true }

/-- Modelled from the spec: `buf.lock()` enters the serialize-locked state. -/
def MutBuffer.lock (b : MutBuffer) : MutBuffer := { b with locked := true }

/-- Modelled from the spec: `buf.unlock()` leaves the serialize-locked state
(the buffer then flushes its pending mutations through the normal emit path). -/
def MutBuffer.unlock (b : MutBuffer) : MutBuffer := { b with locked := false }

/-- One primitive side-effecting step of the orchestrator, recorded in source
order in `RState.trace` so that ordering claims can be stated. -/
inductive Action where
  | unfreezeAll
  | emit (e : EventWithTime) (isCheckout : Option Bool)
  | lockAll
  | serializeCall
  | installMirror
  | warn
  | unlockAll
  deriving DecidableEq

/-- The state the orchestrator closes over, plus the observable output streams. -/
structure RState where
  /-- Events handed to the consumer `onEmit` callback, with the `isCheckout`
  argument (`none` models a call site that passes no second argument). -/
  emitted : List (EventWithTime × Option Bool)
  /-- `let lastFullSnapshotEvent: eventWithTime;` — `none` models the
  uninitialized (`undefined`) binding. -/
  lastFullSnapshotEvent : Option EventWithTime
  /-- `let incrementalSnapshotCount = 0;` -/
  incrementalSnapshotCount : Int
  /-- The module-level `mutationBuffers` array of `observer.ts`. -/
  mutationBuffers : List MutBuffer
  /-- `mirror.map` — the installed Identity Registry, abstracted to the id of the
  `idNodeMap` the serializer returned (0 = the initial empty map). -/
  mirrorMap : Nat
  /-- `console.warn` calls, in order. -/
  consoleWarnings : List String
  /-- `private recording: boolean = false` of the `Recorder` class. -/
  recording : Bool
  /-- Instrumentation: the primitive steps, in source order. -/
  trace : List Action
  deriving DecidableEq

/-- The constructor-closure configuration the emit pipeline reads. -/
structure RecordConfig where
  checkoutEveryNth : Option Int
  checkoutEveryNms : Option Int
  deriving DecidableEq

/-- The ambient browser environment read during one synchronous call into the
orchestrator. -/
structure Env where
  /-- `Date.now()` (events created inside the call are stamped with it). -/
  now : Int
  /-- Result of the external `snapshot(document, …)` serializer:
  `some (node, idNodeMap)` on success, `none` when it returns no tree
  (`[null, null]`). -/
  snapRes : Option (Nat × Nat)
  /-- `window.location.href`. -/
  href : String
  /-- `getWindowWidth()`. -/
  width : Int
  /-- `getWindowHeight()`. -/
  height : Int
  /-- The computed `initialOffset.left` fallback chain. -/
  scrollLeft : Int
  /-- The computed `initialOffset.top` fallback chain. -/
  scrollTop : Int
  /-- `document.readyState === 'interactive' || document.readyState === 'complete'`. -/
  docReady : Bool
  deriving DecidableEq

/-- The state at module load: nothing emitted, `lastFullSnapshotEvent` undefined,
count 0, no mutation buffers yet, empty mirror, `recording = false`. -/
def initState : RState :=
  { emitted := [], lastFullSnapshotEvent := none, incrementalSnapshotCount := 0,
    mutationBuffers := [], mirrorMap := 0, consoleWarnings := [], recording := false,
    trace := [] }

/-- `mutationBuffers[0]?.isFrozen()` — optional chaining yields `undefined`
(falsy) on an empty array. -/
def headFrozen : List MutBuffer → Bool
  | [] => false
  | b :: _ => b.frozen

/-- The guard of the unfreeze-on-activity branch of `wrappedEmit`
(lines 162–169): the first buffer is frozen, the event is not a `FullSnapshot`,
and it is not a mutation `IncrementalSnapshot`. -/
def freezeCond (bufs : List MutBuffer) (d : EventData) : Bool :=
  headFrozen bufs && !d.isFullSnapshot && !d.isMutationIncremental

/-- Lines 162–173 of `wrappedEmit`: if the guard holds, unfreeze every buffer. -/
def maybeUnfreeze (s : RState) (d : EventData) : RState :=
  if freezeCond s.mutationBuffers d then
    { s with mutationBuffers := s.mutationBuffers.map MutBuffer.unfreeze,
             trace := s.trace ++ [Action.unfreezeAll] }
  else s

/-- Line 175 of `wrappedEmit`: `onEmit(e, isCheckout)` — hand the event to the
consumer callback. -/
def consumerEmit (s : RState) (e : EventWithTime) (io : Option Bool) : RState :=
  { s with emitted := s.emitted ++ [(e, io)], trace := s.trace ++ [Action.emit e io] }

/-- Lines 176–180 of `wrappedEmit`: on a `FullSnapshot`, remember it and reset the
counter; on an `IncrementalSnapshot`, increment the counter. -/
def bookkeep (s : RState) (e : EventWithTime) : RState :=
  if e.data.isFullSnapshot then
    { s with lastFullSnapshotEvent := some e, incrementalSnapshotCount := 0 }
  else if e.data.isIncremental then
    { s with incrementalSnapshotCount := s.incrementalSnapshotCount + 1 }
  else s

/-- The cadence-free part of `wrappedEmit` (lines 161–180): unfreeze-on-activity
check, hand to consumer, bookkeeping.  For `Meta` and `FullSnapshot` events this
is all `wrappedEmit` does, so `takeFullSnapshot` below emits through it. -/
def emitStep (s : RState) (e : EventWithTime) (io : Option Bool) : RState :=
  bookkeep (consumerEmit (maybeUnfreeze s e.data) e io) e

/-- The `Meta` event built at the top of `takeFullSnapshot` (lines 338–348). -/
def metaEvent (env : Env) : EventWithTime :=
  { data := EventData.meta env.href env.width env.height, timestamp := env.now }

/-- The `FullSnapshot` event built in `takeFullSnapshot` (lines 368–391). -/
def fullSnapshotEvent (env : Env) (node : Nat) : EventWithTime :=
  { data := EventData.fullSnapshot node env.scrollLeft env.scrollTop,
    timestamp := env.now }

/-- The `console.warn` message of the serialization-failure path (line 364). -/
def snapshotFailWarning : String := "Failed to snapshot the document"

/-- `Recorder.takeFullSnapshot(isCheckout = false)` (lines 337–393): emit `Meta`
(passing `isCheckout`), lock every buffer, call the external serializer; on
failure (`!node`) warn and return; on success install the fresh registry
(`mirror.map = idNodeMap`), emit the `FullSnapshot` (no `isCheckout` argument),
then unlock every buffer. -/
def Recorder.takeFullSnapshot (env : Env) (s : RState) (isCheckout : Bool) : RState :=
  let s1 := emitStep s (metaEvent env) (some isCheckout)
  let s2 := { s1 with mutationBuffers := s1.mutationBuffers.map MutBuffer.lock,
                      trace := s1.trace ++ [Action.lockAll] }
  let s3 := { s2 with trace := s2.trace ++ [Action.serializeCall] }
  match env.snapRes with
  | none =>
      { s3 with consoleWarnings := s3.consoleWarnings ++ [snapshotFailWarning],
                trace := s3.trace ++ [Action.warn] }
  | some (node, idNodeMap) =>
      let s4 := { s3 with mirrorMap := idNodeMap,
                          trace := s3.trace ++ [Action.installMirror] }
      let s5 := emitStep s4 (fullSnapshotEvent env node) none
      { s5 with mutationBuffers := s5.mutationBuffers.map MutBuffer.unlock,
                trace := s5.trace ++ [Action.unlockAll] }

/-- `checkoutEveryNth && incrementalSnapshotCount >= checkoutEveryNth` (line 181),
evaluated after the increment; an absent or zero (falsy) option disables it. -/
def exceedCountOf (cfg : RecordConfig) (s1 : RState) : Bool :=
  match cfg.checkoutEveryNth with
  | none => false
  | some n => decide (n ≠ 0) && decide (s1.incrementalSnapshotCount ≥ n)

/-- The error raised by `lastFullSnapshotEvent.timestamp` when the binding is
still `undefined`. -/
def undefinedTimestampError : String :=
  "TypeError: cannot read timestamp of undefined"

/-- `checkoutEveryNms && e.timestamp - lastFullSnapshotEvent.timestamp > checkoutEveryNms`
(lines 183–185): an absent or zero (falsy) option short-circuits to false without
reading `lastFullSnapshotEvent`; a truthy option reads it, raising a `TypeError`
when it is still `undefined`. -/
def exceedTimeOf (cfg : RecordConfig) (s1 : RState) (e : EventWithTime) :
    Except String Bool :=
  match cfg.checkoutEveryNms with
  | none => .ok false
  | some n =>
      if n = 0 then .ok false
      else
        match s1.lastFullSnapshotEvent with
        | none => .error undefinedTimestampError
        | some f => .ok (decide (e.timestamp - f.timestamp > n))

/-- `this.wrappedEmit` (lines 161–190): the cadence-free step, then — only for an
`IncrementalSnapshot` — evaluate both cadence conditions and recurse into
`takeFullSnapshot(true)` when either holds.  `emitStep s e io` is the state after
the freeze check, consumer handoff and bookkeeping (the source's closure state at
line 181, written out in full at each use instead of being named). -/
def Recorder.wrappedEmit (cfg : RecordConfig) (env : Env) (s : RState)
    (e : EventWithTime) (io : Option Bool) : Except String RState :=
  if e.data.isIncremental then
    match exceedTimeOf cfg (emitStep s e io) e with
    | .error msg => .error msg
    | .ok exceedTime =>
        if exceedCountOf cfg (emitStep s e io) || exceedTime then
          .ok (Recorder.takeFullSnapshot env (emitStep s e io) true)
        else .ok (emitStep s e io)
  else .ok (emitStep s e io)

/-- The error message of `Recorder.addCustomEvent` and `record.addCustomEvent`. -/
def addCustomEventError : String := "please add custom event after start recording"

/-- `Recorder.addCustomEvent` (lines 448–462): throw unless `this.recording`,
otherwise emit a wrapped `Custom` event. -/
def Recorder.addCustomEvent (cfg : RecordConfig) (env : Env) (s : RState)
    (tag payload : String) : Except String RState :=
  if s.recording = false then .error addCustomEventError
  else
    Recorder.wrappedEmit cfg env s
      { data := EventData.custom tag payload, timestamp := env.now } none

/-- `Recorder.freezePage` (lines 464–466): freeze every buffer. -/
def Recorder.freezePage (s : RState) : RState :=
  { s with mutationBuffers := s.mutationBuffers.map MutBuffer.freeze }

/-- `Recorder.record` (lines 395–446), the start method, restricted to its state
effects during the call: handlers for `DOMContentLoaded`, iframe loads and (when
the document is not yet ready) `load` are only registered; when
`document.readyState` is `interactive` or `complete`, `init()` runs now — an
initial `takeFullSnapshot()` followed by `observe(document)`.  `initObservers`
lives in `observer.ts` (not under `src/`); modelled from the spec: observing a
document attaches a fresh (active, unlocked) Mutation Buffer to it. -/
def Recorder.recordStart (env : Env) (s : RState) : RState :=
  if env.docReady then
    let s1 := Recorder.takeFullSnapshot env s false
    { s1 with mutationBuffers := s1.mutationBuffers ++ [{ frozen := false, locked := false }] }
  else s

/-- The per-kind input-masking map of `rrweb-snapshot` (`MaskInputOptions`): one
flag per input kind; `{}` (all defaults) masks nothing. -/
structure MaskInputOptions where
  color : Bool := false
  date : Bool := false
  datetimeLocal : Bool := false
  email : Bool := false
  month : Bool := false
  number : Bool := false
  range : Bool := false
  search : Bool := false
  tel : Bool := false
  text : Bool := false
  time : Bool := false
  url : Bool := false
  week : Bool := false
  textarea : Bool := false
  select : Bool := false
  deriving DecidableEq

/-- The all-kinds-enabled map the constructor builds when `maskAllInputs === true`
(lines 75–91). -/
def allMaskInputOptions : MaskInputOptions :=
  { color := true, date := true, datetimeLocal := true, email := true,
    month := true, number := true, range := true, search := true, tel := true,
    text := true, time := true, url := true, week := true, textarea := true,
    select := true }

/-- Lines 73–94 of the constructor: `maskAllInputs === true ? {…all true} :
_maskInputOptions !== undefined ? _maskInputOptions : {}`. -/
def computeMaskInputOptions (maskAllInputs : Option Bool)
    (maskInputOptions : Option MaskInputOptions) : MaskInputOptions :=
  if maskAllInputs = some true then allMaskInputOptions
  else
    match maskInputOptions with
    | some o => o
    | none => {}

/-- True when some input kind is enabled in the map. -/
def MaskInputOptions.anyMasked (o : MaskInputOptions) : Bool :=
  o.color || o.date || o.datetimeLocal || o.email || o.month || o.number ||
    o.range || o.search || o.tel || o.text || o.time || o.url || o.week ||
    o.textarea || o.select

/-- True when every input kind is enabled in the map. -/
def MaskInputOptions.allMasked (o : MaskInputOptions) : Bool :=
  o.color && o.date && o.datetimeLocal && o.email && o.month && o.number &&
    o.range && o.search && o.tel && o.text && o.time && o.url && o.week &&
    o.textarea && o.select

/-- The `recordOptions` fields the modelled code paths read.  `emit` carries only
its presence (`some ()` = a function was supplied): the consumer stream itself
lives in `RState.emitted`. -/
structure RecordOptions where
  emit : Option Unit := none
  checkoutEveryNth : Option Int := none
  checkoutEveryNms : Option Int := none
  maskAllInputs : Option Bool := none
  maskInputOptions : Option MaskInputOptions := none
  deriving DecidableEq

/-- The constructor-closure configuration extracted from the options. -/
def cfgOf (o : RecordOptions) : RecordConfig :=
  { checkoutEveryNth := o.checkoutEveryNth, checkoutEveryNms := o.checkoutEveryNms }

/-- The error thrown by `record` when the `emit` option is absent (line 479). -/
def emitRequiredError : String := "emit function is required"

/-- The module-level `record` entry point (lines 471–484): destructure `emit`,
throw `emit function is required` if it is absent (falsy), otherwise construct a
`Recorder` (whose state starts from `initState`) and call its `record` method. -/
def recordFn (o : RecordOptions) (env : Env) : Except String RState :=
  if o.emit = none then .error emitRequiredError
  else .ok (Recorder.recordStart env initState)

/-- The static `record.addCustomEvent` (lines 486–491): throw when the
module-level `recorder` binding is still `undefined`, otherwise delegate to
`Recorder.addCustomEvent` on it. -/
def recordStaticAddCustomEvent (recorderVar : Option (RecordConfig × RState))
    (env : Env) (tag payload : String) : Except String RState :=
  match recorderVar with
  | none => .error addCustomEventError
  | some (cfg, s) => Recorder.addCustomEvent cfg env s tag payload

/-- Modelled from the spec: one detach handler of the `handlers` array built by
`Recorder.record` — the listener cancellers from `on(…)` and the observer
detachers from `initObservers` (both in files not under `src/`).  Spec §4.1/§6:
`stop()` detaches the Change Detectors; detaching removes the handler's listener
from the set of attached listeners, so detaching an absent listener is a no-op.
A handler is abstracted to the id of the listener it detaches, the world to the
`Finset` of attached listener ids. -/
def runHandler (w : Finset Nat) (h : Nat) : Finset Nat := w.erase h

/-- The disposer returned by `Recorder.record` (lines 439–441):
`() => handlers.forEach((h) => h())` — invoke every handler in order. -/
def Recorder.recordDisposer (handlers : List Nat) (w : Finset Nat) : Finset Nat :=
  handlers.foldl runHandler w

/-- True when an `Except`-modelled call returns normally (does not throw). -/
def exceptOk : Except String RState → Bool
  | .ok _ => true
  | .error _ => false

/-- The number of `FullSnapshot` events handed to the consumer so far. -/
def fullSnapshotEmitCount (s : RState) : Nat :=
  (s.emitted.filter (fun p => p.1.data.isFullSnapshot)).length

/-! Concrete fixtures used by counterexamples and witnesses. -/

/-- A benign environment: document ready, serializer succeeds with node tree 7
and registry 3. -/
def envOK : Env :=
  { now := 42, snapRes := some (7, 3), href := "http:x", width := 800,
    height := 600, scrollLeft := 0, scrollTop := 0, docReady := true }

/-- Same environment but the serializer returns no tree. -/
def envFail : Env := { envOK with snapRes := none }

/-- No cadence configured. -/
def cfg0 : RecordConfig := { checkoutEveryNth := none, checkoutEveryNms := none }

/-- Time cadence of 1000 ms, no count cadence. -/
def cfgNms : RecordConfig := { checkoutEveryNth := none, checkoutEveryNms := some 1000 }

/-- Count cadence of 2, no time cadence. -/
def cfgN2 : RecordConfig := { checkoutEveryNth := some 2, checkoutEveryNms := none }

/-- One active, unlocked mutation buffer. -/
def s0 : RState :=
  { initState with mutationBuffers := [{ frozen := false, locked := false }] }

/-- Main-document buffer active, a second (embedded-document) buffer frozen. -/
def s3 : RState :=
  { initState with
      mutationBuffers := [{ frozen := false, locked := false },
                          { frozen := true, locked := false }] }

/-- Main-document buffer frozen. -/
def sF : RState :=
  { initState with mutationBuffers := [{ frozen := true, locked := false }] }

/-- A `FullSnapshot` event at time 0, as stored by the bookkeeping. -/
def fullEvt0 : EventWithTime := { data := .fullSnapshot 7 0 0, timestamp := 0 }

/-- A state in which that snapshot is the last checkpoint. -/
def sAfterFull : RState :=
  { initState with lastFullSnapshotEvent := some fullEvt0,
                   emitted := [(fullEvt0, none)] }

/-- Same, but one incremental event already counted since that checkpoint. -/
def sInc1 : RState := { sAfterFull with incrementalSnapshotCount := 1 }

/-- A pointer-interaction incremental event at time 1000. -/
def eMouse : EventWithTime :=
  { data := .incrementalSnapshot .mouseInteraction, timestamp := 1000 }

/-- A pointer-interaction incremental event at time 1001. -/
def eMouse1001 : EventWithTime :=
  { data := .incrementalSnapshot .mouseInteraction, timestamp := 1001 }

/-! Basic facts about the event tags. -/

theorem isFullSnapshot_false_of_isIncremental (d : EventData)
    (h : d.isIncremental = true) : d.isFullSnapshot = false := by
  cases d <;> simp_all [EventData.isIncremental, EventData.isFullSnapshot]

theorem freezeCond_fullSnapshot (bufs : List MutBuffer) (d : EventData)
    (h : d.isFullSnapshot = true) : freezeCond bufs d = false := by
  simp [freezeCond, h]

/-! Projection lemmas for the stages of the cadence-free emit step. -/

theorem bookkeep_trace (s : RState) (e : EventWithTime) :
    (bookkeep s e).trace = s.trace := by
  unfold bookkeep; split
  · rfl
  · split <;> rfl

theorem bookkeep_emitted (s : RState) (e : EventWithTime) :
    (bookkeep s e).emitted = s.emitted := by
  unfold bookkeep; split
  · rfl
  · split <;> rfl

theorem bookkeep_mutationBuffers (s : RState) (e : EventWithTime) :
    (bookkeep s e).mutationBuffers = s.mutationBuffers := by
  unfold bookkeep; split
  · rfl
  · split <;> rfl

theorem bookkeep_consoleWarnings (s : RState) (e : EventWithTime) :
    (bookkeep s e).consoleWarnings = s.consoleWarnings := by
  unfold bookkeep; split
  · rfl
  · split <;> rfl

theorem bookkeep_mirrorMap (s : RState) (e : EventWithTime) :
    (bookkeep s e).mirrorMap = s.mirrorMap := by
  unfold bookkeep; split
  · rfl
  · split <;> rfl

theorem bookkeep_incCount_of_incremental (s : RState) (e : EventWithTime)
    (h : e.data.isIncremental = true) :
    (bookkeep s e).incrementalSnapshotCount = s.incrementalSnapshotCount + 1 := by
  unfold bookkeep
  rw [isFullSnapshot_false_of_isIncremental e.data h, h]
  rfl

theorem bookkeep_last_of_incremental (s : RState) (e : EventWithTime)
    (h : e.data.isIncremental = true) :
    (bookkeep s e).lastFullSnapshotEvent = s.lastFullSnapshotEvent := by
  unfold bookkeep
  rw [isFullSnapshot_false_of_isIncremental e.data h, h]
  rfl

theorem bookkeep_of_fullSnapshot (s : RState) (e : EventWithTime)
    (h : e.data.isFullSnapshot = true) :
    (bookkeep s e) =
      { s with lastFullSnapshotEvent := some e, incrementalSnapshotCount := 0 } := by
  unfold bookkeep
  rw [h]
  simp

theorem maybeUnfreeze_emitted (s : RState) (d : EventData) :
    (maybeUnfreeze s d).emitted = s.emitted := by
  unfold maybeUnfreeze; split <;> rfl

theorem maybeUnfreeze_last (s : RState) (d : EventData) :
    (maybeUnfreeze s d).lastFullSnapshotEvent = s.lastFullSnapshotEvent := by
  unfold maybeUnfreeze; split <;> rfl

theorem maybeUnfreeze_incCount (s : RState) (d : EventData) :
    (maybeUnfreeze s d).incrementalSnapshotCount = s.incrementalSnapshotCount := by
  unfold maybeUnfreeze; split <;> rfl

theorem maybeUnfreeze_consoleWarnings (s : RState) (d : EventData) :
    (maybeUnfreeze s d).consoleWarnings = s.consoleWarnings := by
  unfold maybeUnfreeze; split <;> rfl

theorem maybeUnfreeze_mirrorMap (s : RState) (d : EventData) :
    (maybeUnfreeze s d).mirrorMap = s.mirrorMap := by
  unfold maybeUnfreeze; split <;> rfl

theorem maybeUnfreeze_trace (s : RState) (d : EventData) :
    (maybeUnfreeze s d).trace =
      s.trace ++ (if freezeCond s.mutationBuffers d then [Action.unfreezeAll] else []) := by
  unfold maybeUnfreeze; split <;> simp_all

theorem maybeUnfreeze_mutationBuffers (s : RState) (d : EventData) :
    (maybeUnfreeze s d).mutationBuffers =
      if freezeCond s.mutationBuffers d then s.mutationBuffers.map MutBuffer.unfreeze
      else s.mutationBuffers := by
  unfold maybeUnfreeze; split <;> simp_all

/-! Projection lemmas for `emitStep`. -/

theorem emitStep_emitted (s : RState) (e : EventWithTime) (io : Option Bool) :
    (emitStep s e io).emitted = s.emitted ++ [(e, io)] := by
  unfold emitStep consumerEmit
  rw [bookkeep_emitted]
  simp [maybeUnfreeze_emitted]

theorem emitStep_trace (s : RState) (e : EventWithTime) (io : Option Bool) :
    (emitStep s e io).trace =
      s.trace ++ (if freezeCond s.mutationBuffers e.data then [Action.unfreezeAll] else [])
        ++ [Action.emit e io] := by
  unfold emitStep consumerEmit
  rw [bookkeep_trace]
  simp [maybeUnfreeze_trace]

theorem emitStep_mutationBuffers (s : RState) (e : EventWithTime) (io : Option Bool) :
    (emitStep s e io).mutationBuffers =
      if freezeCond s.mutationBuffers e.data then s.mutationBuffers.map MutBuffer.unfreeze
      else s.mutationBuffers := by
  unfold emitStep consumerEmit
  rw [bookkeep_mutationBuffers]
  simp [maybeUnfreeze_mutationBuffers]

theorem emitStep_consoleWarnings (s : RState) (e : EventWithTime) (io : Option Bool) :
    (emitStep s e io).consoleWarnings = s.consoleWarnings := by
  unfold emitStep consumerEmit
  rw [bookkeep_consoleWarnings]
  simp [maybeUnfreeze_consoleWarnings]

theorem emitStep_mirrorMap (s : RState) (e : EventWithTime) (io : Option Bool) :
    (emitStep s e io).mirrorMap = s.mirrorMap := by
  unfold emitStep consumerEmit
  rw [bookkeep_mirrorMap]
  simp [maybeUnfreeze_mirrorMap]

theorem emitStep_incCount_of_incremental (s : RState) (e : EventWithTime)
    (io : Option Bool) (h : e.data.isIncremental = true) :
    (emitStep s e io).incrementalSnapshotCount = s.incrementalSnapshotCount + 1 := by
  unfold emitStep
  rw [bookkeep_incCount_of_incremental _ _ h]
  unfold consumerEmit
  simp [maybeUnfreeze_incCount]

theorem emitStep_last_of_incremental (s : RState) (e : EventWithTime)
    (io : Option Bool) (h : e.data.isIncremental = true) :
    (emitStep s e io).lastFullSnapshotEvent = s.lastFullSnapshotEvent := by
  unfold emitStep
  rw [bookkeep_last_of_incremental _ _ h]
  unfold consumerEmit
  simp [maybeUnfreeze_last]

theorem emitStep_incCount_of_fullSnapshot (s : RState) (e : EventWithTime)
    (io : Option Bool) (h : e.data.isFullSnapshot = true) :
    (emitStep s e io).incrementalSnapshotCount = 0 := by
  unfold emitStep
  rw [bookkeep_of_fullSnapshot _ _ h]

theorem freezeCond_meta (bufs : List MutBuffer) (href : String) (w h : Int) :
    freezeCond bufs (EventData.meta href w h) = headFrozen bufs := by
  simp [freezeCond, EventData.isFullSnapshot, EventData.isMutationIncremental]

theorem freezeCond_full (bufs : List MutBuffer) (n : Nat) (l t : Int) :
    freezeCond bufs (EventData.fullSnapshot n l t) = false := by
  simp [freezeCond, EventData.isFullSnapshot]

/-! All-buffer facts for the lock/unlock/unfreeze maps. -/

theorem all_locked_map_lock (l : List MutBuffer) :
    (l.map MutBuffer.lock).all (fun b => b.locked) = true := by
  simp [List.all_eq_true, List.mem_map, MutBuffer.lock]

theorem all_unlocked_map_unlock (l : List MutBuffer) :
    (l.map MutBuffer.unlock).all (fun b => !b.locked) = true := by
  simp [List.all_eq_true, List.mem_map, MutBuffer.unlock]

theorem all_unfrozen_map_unfreeze (l : List MutBuffer) :
    (l.map MutBuffer.unfreeze).all (fun b => !b.frozen) = true := by
  simp [List.all_eq_true, List.mem_map, MutBuffer.unfreeze]

theorem all_unfrozen_map_lock (l : List MutBuffer)
    (h : l.all (fun b => !b.frozen) = true) :
    (l.map MutBuffer.lock).all (fun b => !b.frozen) = true := by
  simp only [List.all_eq_true, List.mem_map] at *
  rintro x ⟨b, hb, rfl⟩
  exact h b hb

theorem all_unfrozen_map_unlock (l : List MutBuffer)
    (h : l.all (fun b => !b.frozen) = true) :
    (l.map MutBuffer.unlock).all (fun b => !b.frozen) = true := by
  simp only [List.all_eq_true, List.mem_map] at *
  rintro x ⟨b, hb, rfl⟩
  exact h b hb

theorem emitStep_all_unfrozen (s : RState) (e : EventWithTime) (io : Option Bool)
    (h : s.mutationBuffers.all (fun b => !b.frozen) = true) :
    (emitStep s e io).mutationBuffers.all (fun b => !b.frozen) = true := by
  rw [emitStep_mutationBuffers]
  split
  · exact all_unfrozen_map_unfreeze _
  · exact h

/-! Shape lemmas for `takeFullSnapshot`. -/

theorem takeFullSnapshot_mutationBuffers (env : Env) (s : RState) (io : Bool) :
    (Recorder.takeFullSnapshot env s io).mutationBuffers =
      match env.snapRes with
      | none => (emitStep s (metaEvent env) (some io)).mutationBuffers.map MutBuffer.lock
      | some _ =>
          ((emitStep s (metaEvent env) (some io)).mutationBuffers.map
            MutBuffer.lock).map MutBuffer.unlock := by
  unfold Recorder.takeFullSnapshot
  rcases env.snapRes with _ | ⟨nd, im⟩
  · rfl
  · simp [emitStep_mutationBuffers, freezeCond, fullSnapshotEvent,
      EventData.isFullSnapshot]

theorem takeFullSnapshot_fail_consoleWarnings (env : Env) (s : RState) (io : Bool)
    (h : env.snapRes = none) :
    (Recorder.takeFullSnapshot env s io).consoleWarnings =
      s.consoleWarnings ++ [snapshotFailWarning] := by
  unfold Recorder.takeFullSnapshot
  rw [h]
  simp [emitStep_consoleWarnings]

theorem takeFullSnapshot_fail_emitted (env : Env) (s : RState) (io : Bool)
    (h : env.snapRes = none) :
    (Recorder.takeFullSnapshot env s io).emitted =
      s.emitted ++ [(metaEvent env, some io)] := by
  unfold Recorder.takeFullSnapshot
  rw [h]
  simp [emitStep_emitted]

theorem takeFullSnapshot_fail_trace (env : Env) (s : RState) (io : Bool)
    (h : env.snapRes = none) :
    (Recorder.takeFullSnapshot env s io).trace =
      s.trace ++ (if headFrozen s.mutationBuffers then [Action.unfreezeAll] else [])
        ++ [Action.emit (metaEvent env) (some io), Action.lockAll,
            Action.serializeCall, Action.warn] := by
  unfold Recorder.takeFullSnapshot
  rw [h]
  simp [emitStep_trace, metaEvent, freezeCond_meta]

theorem takeFullSnapshot_ok_emitted (env : Env) (s : RState) (io : Bool)
    (nd im : Nat) (h : env.snapRes = some (nd, im)) :
    (Recorder.takeFullSnapshot env s io).emitted =
      s.emitted ++ [(metaEvent env, some io), (fullSnapshotEvent env nd, none)] := by
  unfold Recorder.takeFullSnapshot
  rw [h]
  simp [emitStep_emitted]

theorem takeFullSnapshot_ok_trace (env : Env) (s : RState) (io : Bool)
    (nd im : Nat) (h : env.snapRes = some (nd, im)) :
    (Recorder.takeFullSnapshot env s io).trace =
      s.trace ++ (if headFrozen s.mutationBuffers then [Action.unfreezeAll] else [])
        ++ [Action.emit (metaEvent env) (some io), Action.lockAll,
            Action.serializeCall, Action.installMirror,
            Action.emit (fullSnapshotEvent env nd) none, Action.unlockAll] := by
  unfold Recorder.takeFullSnapshot
  rw [h]
  simp [emitStep_trace, metaEvent, freezeCond_meta, fullSnapshotEvent, freezeCond_full]

theorem takeFullSnapshot_ok_incCount (env : Env) (s : RState) (io : Bool)
    (nd im : Nat) (h : env.snapRes = some (nd, im)) :
    (Recorder.takeFullSnapshot env s io).incrementalSnapshotCount = 0 := by
  unfold Recorder.takeFullSnapshot
  rw [h]
  simp only []
  rw [emitStep_incCount_of_fullSnapshot]
  rfl

theorem takeFullSnapshot_ok_mirrorMap (env : Env) (s : RState) (io : Bool)
    (nd im : Nat) (h : env.snapRes = some (nd, im)) :
    (Recorder.takeFullSnapshot env s io).mirrorMap = im := by
  unfold Recorder.takeFullSnapshot
  rw [h]
  simp [emitStep_mirrorMap]

theorem takeFullSnapshot_trace_ext (env : Env) (s : RState) (io : Bool) :
    ∃ t, (Recorder.takeFullSnapshot env s io).trace = s.trace ++ t := by
  rcases h : env.snapRes with _ | ⟨nd, im⟩
  · exact ⟨_, by rw [takeFullSnapshot_fail_trace env s io h, List.append_assoc]⟩
  · exact ⟨_, by rw [takeFullSnapshot_ok_trace env s io nd im h, List.append_assoc]⟩

theorem takeFullSnapshot_all_unfrozen (env : Env) (s : RState) (io : Bool)
    (h : s.mutationBuffers.all (fun b => !b.frozen) = true) :
    (Recorder.takeFullSnapshot env s io).mutationBuffers.all
      (fun b => !b.frozen) = true := by
  rw [takeFullSnapshot_mutationBuffers]
  rcases env.snapRes with _ | ⟨nd, im⟩
  · exact all_unfrozen_map_lock _ (emitStep_all_unfrozen s _ _ h)
  · exact all_unfrozen_map_unlock _ (all_unfrozen_map_lock _ (emitStep_all_unfrozen s _ _ h))

/-! Reduction lemmas for `wrappedEmit`. -/

theorem wrappedEmit_not_incremental (cfg : RecordConfig) (env : Env) (s : RState)
    (e : EventWithTime) (io : Option Bool) (h : e.data.isIncremental = false) :
    Recorder.wrappedEmit cfg env s e io = .ok (emitStep s e io) := by
  unfold Recorder.wrappedEmit
  rw [h]
  rfl

theorem wrappedEmit_inc_nms_none (cfg : RecordConfig) (env : Env) (s : RState)
    (e : EventWithTime) (io : Option Bool) (hinc : e.data.isIncremental = true)
    (hnms : cfg.checkoutEveryNms = none) :
    Recorder.wrappedEmit cfg env s e io =
      if exceedCountOf cfg (emitStep s e io) then
        .ok (Recorder.takeFullSnapshot env (emitStep s e io) true)
      else .ok (emitStep s e io) := by
  unfold Recorder.wrappedEmit exceedTimeOf
  rw [hinc, hnms]
  simp

theorem wrappedEmit_inc_nms_some (cfg : RecordConfig) (env : Env) (s : RState)
    (e : EventWithTime) (io : Option Bool) (n : Int) (f : EventWithTime)
    (hinc : e.data.isIncremental = true) (hnms : cfg.checkoutEveryNms = some n)
    (hn : n ≠ 0) (hlast : s.lastFullSnapshotEvent = some f) :
    Recorder.wrappedEmit cfg env s e io =
      if exceedCountOf cfg (emitStep s e io) || decide (e.timestamp - f.timestamp > n) then
        .ok (Recorder.takeFullSnapshot env (emitStep s e io) true)
      else .ok (emitStep s e io) := by
  unfold Recorder.wrappedEmit exceedTimeOf
  rw [hinc]
  simp only [hnms, emitStep_last_of_incremental s e io hinc, hlast]
  simp [hn]

theorem wrappedEmit_ok_cases (cfg : RecordConfig) (env : Env) (s : RState)
    (e : EventWithTime) (io : Option Bool) (s' : RState)
    (hok : Recorder.wrappedEmit cfg env s e io = .ok s') :
    s' = emitStep s e io ∨
      s' = Recorder.takeFullSnapshot env (emitStep s e io) true := by
  unfold Recorder.wrappedEmit at hok
  by_cases hi : e.data.isIncremental = true
  · rw [if_pos hi] at hok
    rcases hET : exceedTimeOf cfg (emitStep s e io) e with msg | ex
    · rw [hET] at hok; cases hok
    · simp only [hET] at hok
      by_cases hc : (exceedCountOf cfg (emitStep s e io) || ex) = true
      · rw [if_pos hc] at hok
        exact Or.inr (Except.ok.inj hok).symm
      · rw [if_neg hc] at hok
        exact Or.inl (Except.ok.inj hok).symm
  · rw [if_neg hi] at hok
    exact Or.inl (Except.ok.inj hok).symm

/-! Helper lemmas for the disposer model. -/

theorem recordDisposer_subset (handlers : List Nat) (w : Finset Nat) :
    Recorder.recordDisposer handlers w ⊆ w := by
  induction handlers generalizing w with
  | nil => exact fun a ha => ha
  | cons h t ih =>
      exact fun a ha => Finset.erase_subset h w (ih (w.erase h) ha)

theorem recordDisposer_not_mem (handlers : List Nat) (a : Nat) :
    ∀ w : Finset Nat, a ∈ handlers → a ∉ Recorder.recordDisposer handlers w := by
  induction handlers with
  | nil => intro w ha; cases ha
  | cons h t ih =>
      intro w ha
      rcases List.mem_cons.mp ha with rfl | hmem
      · intro hmem'
        exact Finset.not_mem_erase a w (recordDisposer_subset t (w.erase a) hmem')
      · exact ih (w.erase h) hmem

theorem recordDisposer_eq_of_disjoint (handlers : List Nat) (v : Finset Nat)
    (h : ∀ a ∈ handlers, a ∉ v) : Recorder.recordDisposer handlers v = v := by
  induction handlers generalizing v with
  | nil => rfl
  | cons hd t ih =>
      show Recorder.recordDisposer t (v.erase hd) = v
      rw [Finset.erase_eq_of_not_mem (h hd (List.mem_cons_self hd t))]
      exact ih v (fun a ha => h a (List.mem_cons_of_mem hd ha))

/-! Claim theorems. -/

/-- C1, counterexample: the claim says every Mutation Buffer lock taken at the
start of the checkpoint is released when the serializer returns no tree.  In
state `s0` (one active, unlocked buffer), a failing `takeFullSnapshot` leaves
the buffer locked: `lock()` is executed before the serializer call, and the
failure path returns after `console.warn` without reaching the
`buf.unlock()` loop, so not every buffer is unlocked afterwards. -/
theorem c1_counterexample :
    ((Recorder.takeFullSnapshot envFail s0 false).mutationBuffers.all
      (fun b => !b.locked)) = false := by rfl

/-- C1, amended: when the Structural Serializer returns no node tree, the
checkpoint is aborted, a warning is reported, no `FullSnapshot` event is emitted
and capture continues — but the Mutation Buffer locks taken at the start of the
checkpoint are NOT released: every buffer is left locked. -/
theorem c1_snapshot_failure_keeps_locks (env : Env) (s : RState) (io : Bool)
    (h : env.snapRes = none) :
    (Recorder.takeFullSnapshot env s io).consoleWarnings =
        s.consoleWarnings ++ [snapshotFailWarning] ∧
    fullSnapshotEmitCount (Recorder.takeFullSnapshot env s io) =
        fullSnapshotEmitCount s ∧
    (Recorder.takeFullSnapshot env s io).mutationBuffers.all
        (fun b => b.locked) = true := by
  refine ⟨takeFullSnapshot_fail_consoleWarnings env s io h, ?_, ?_⟩
  · unfold fullSnapshotEmitCount
    rw [takeFullSnapshot_fail_emitted env s io h]
    simp [metaEvent, EventData.isFullSnapshot]
  · rw [takeFullSnapshot_mutationBuffers, h]
    exact all_locked_map_lock _

/-- C1, witness for `c1_snapshot_failure_keeps_locks` at a failing environment
and one active buffer. -/
theorem c1_witness :
    (Recorder.takeFullSnapshot envFail s0 false).consoleWarnings =
        s0.consoleWarnings ++ [snapshotFailWarning] ∧
    fullSnapshotEmitCount (Recorder.takeFullSnapshot envFail s0 false) =
        fullSnapshotEmitCount s0 ∧
    (Recorder.takeFullSnapshot envFail s0 false).mutationBuffers.all
        (fun b => b.locked) = true :=
  c1_snapshot_failure_keeps_locks envFail s0 false rfl

/-- C2, code-bug evaluation: the claim (and the spec) say `addCustomEvent`
succeeds once recording has started, yet the `recording` field is initialized
`false` and no statement of the file ever sets it `true`, so after a fully
successful start (`record()` with a ready document and a successful initial
snapshot) `Recorder.addCustomEvent` still throws the illegal-state error, and so
does the delegating static `record.addCustomEvent` — exactly as it does before
start. -/
theorem c2_addCustomEvent_always_throws :
    (Recorder.recordStart envOK initState).recording = false ∧
    Recorder.addCustomEvent cfg0 envOK (Recorder.recordStart envOK initState)
        "tag" "payload" = .error addCustomEventError ∧
    recordStaticAddCustomEvent none envOK "tag" "payload" =
        .error addCustomEventError ∧
    recordStaticAddCustomEvent (some (cfg0, Recorder.recordStart envOK initState))
        envOK "tag" "payload" = .error addCustomEventError :=
  ⟨rfl, rfl, rfl, rfl⟩

/-- C3, counterexample: the claim triggers on "any Mutation Buffer paused", but
the code inspects only `mutationBuffers[0]`.  In state `s3` (main buffer active,
second buffer frozen), a pointer-interaction event is handed to the consumer
(`emitted` grows to length 1) while the second buffer stays frozen, so not all
buffers are resumed. -/
theorem c3_counterexample :
    (Recorder.wrappedEmit cfg0 envOK s3 eMouse none).map
        (fun s => (s.mutationBuffers.all (fun b => !b.frozen), s.emitted.length)) =
      .ok (false, 1) := by rfl

/-- C3, amended: whenever the FIRST (main-document) Mutation Buffer is frozen
and an outgoing event is neither a `FullSnapshot` nor a tree-mutation
`IncrementalSnapshot`, the emit pipeline unfreezes ALL Mutation Buffers before
the event is handed to the consumer callback: in the step's trace the
`unfreezeAll` action immediately precedes the consumer emit, and every buffer is
unfrozen afterwards. -/
theorem c3_resume_on_main_buffer_frozen (cfg : RecordConfig) (env : Env)
    (s : RState) (e : EventWithTime) (io : Option Bool) (s' : RState)
    (hf : headFrozen s.mutationBuffers = true)
    (h1 : e.data.isFullSnapshot = false)
    (h2 : e.data.isMutationIncremental = false)
    (hok : Recorder.wrappedEmit cfg env s e io = .ok s') :
    s'.trace.take (s.trace.length + 2) =
      s.trace ++ [Action.unfreezeAll, Action.emit e io] ∧
    s'.mutationBuffers.all (fun b => !b.frozen) = true := by
  have hcond : freezeCond s.mutationBuffers e.data = true := by
    simp [freezeCond, hf, h1, h2]
  have htr1 : (emitStep s e io).trace =
      s.trace ++ [Action.unfreezeAll, Action.emit e io] := by
    rw [emitStep_trace]
    simp [hcond]
  have hbuf1 : (emitStep s e io).mutationBuffers.all (fun b => !b.frozen) = true := by
    rw [emitStep_mutationBuffers]
    simp only [hcond, if_true]
    exact all_unfrozen_map_unfreeze _
  rcases wrappedEmit_ok_cases cfg env s e io s' hok with rfl | rfl
  · refine ⟨?_, hbuf1⟩
    rw [htr1]
    exact List.take_of_length_le (by simp)
  · constructor
    · rcases takeFullSnapshot_trace_ext env (emitStep s e io) true with ⟨t, htr⟩
      rw [htr, htr1]
      exact List.take_left' (by simp)
    · exact takeFullSnapshot_all_unfrozen env _ true hbuf1

/-- C3, witness for `c3_resume_on_main_buffer_frozen`: main buffer frozen, a
pointer-interaction event, no cadence configured. -/
theorem c3_witness :
    (emitStep sF eMouse none).trace.take (sF.trace.length + 2) =
      sF.trace ++ [Action.unfreezeAll, Action.emit eMouse none] ∧
    (emitStep sF eMouse none).mutationBuffers.all (fun b => !b.frozen) = true :=
  c3_resume_on_main_buffer_frozen cfg0 envOK sF eMouse none
    (emitStep sF eMouse none) rfl rfl rfl rfl

/-- C4, counterexample: with `checkoutEveryNms = 1000`, the last checkpoint at
timestamp 0 and an incremental event at timestamp exactly 1000, the claim
requires a new checkpoint, but the code tests `e.timestamp -
lastFullSnapshotEvent.timestamp > checkoutEveryNms`, and `1000 > 1000` is false:
the consumer stream still holds exactly one `FullSnapshot` afterwards. -/
theorem c4_counterexample :
    (Recorder.wrappedEmit cfgNms envOK sAfterFull eMouse none).map
        fullSnapshotEmitCount = .ok 1 := by rfl

/-- C4, amended: with `checkoutEveryNms = 1000` configured, every
`IncrementalSnapshot` whose timestamp is STRICTLY MORE than 1000 ms after the
last `FullSnapshot` timestamp triggers a new checkpoint (`takeFullSnapshot` with
`isCheckout = true`) within that event's own emission, so the consumer stream
gains the event followed by a `Meta` (flagged as checkout) and a `FullSnapshot`;
an event at exactly 1000 ms does not trigger one. -/
theorem c4_strictly_exceeding_interval_triggers (cfg : RecordConfig) (env : Env)
    (s : RState) (e : EventWithTime) (io : Option Bool) (f : EventWithTime)
    (nd im : Nat) (hnms : cfg.checkoutEveryNms = some 1000)
    (hinc : e.data.isIncremental = true)
    (hlast : s.lastFullSnapshotEvent = some f)
    (ht : e.timestamp - f.timestamp > 1000)
    (hsnap : env.snapRes = some (nd, im)) :
    Recorder.wrappedEmit cfg env s e io =
        .ok (Recorder.takeFullSnapshot env (emitStep s e io) true) ∧
    (Recorder.takeFullSnapshot env (emitStep s e io) true).emitted =
        s.emitted ++ [(e, io), (metaEvent env, some true),
                      (fullSnapshotEvent env nd, none)] := by
  constructor
  · rw [wrappedEmit_inc_nms_some cfg env s e io 1000 f hinc hnms (by decide) hlast]
    simp [decide_eq_true ht]
  · rw [takeFullSnapshot_ok_emitted env (emitStep s e io) true nd im hsnap,
      emitStep_emitted]
    simp

/-- C4, witness for `c4_strictly_exceeding_interval_triggers`: last checkpoint
at 0, incremental event at 1001 ms. -/
theorem c4_witness :
    Recorder.wrappedEmit cfgNms envOK sAfterFull eMouse1001 none =
        .ok (Recorder.takeFullSnapshot envOK (emitStep sAfterFull eMouse1001 none) true) ∧
    (Recorder.takeFullSnapshot envOK (emitStep sAfterFull eMouse1001 none) true).emitted =
        sAfterFull.emitted ++ [(eMouse1001, none), (metaEvent envOK, some true),
                               (fullSnapshotEvent envOK 7, none)] :=
  c4_strictly_exceeding_interval_triggers cfgNms envOK sAfterFull eMouse1001 none
    fullEvt0 7 3 rfl rfl rfl (by decide) rfl

/-- C5: with `checkoutEveryNth = N` configured (and no time cadence), the
since-checkpoint counter is incremented on each emitted `IncrementalSnapshot`;
while the incremented counter stays below `N` no checkpoint is triggered, and
the moment it reaches `N` (or more) the emission recurses into
`takeFullSnapshot(true)`, so the consumer stream gains the incremental event
followed by a `Meta`+`FullSnapshot` pair and the counter is reset to 0 — hence
after exactly `N` `IncrementalSnapshot`s since the last checkpoint, the next
(N+1-th) incremental emission is preceded by that new pair. -/
theorem c5_count_cadence (cfg : RecordConfig) (env : Env) (s : RState)
    (e : EventWithTime) (io : Option Bool) (N : Int) (nd im : Nat)
    (hnth : cfg.checkoutEveryNth = some N) (hnms : cfg.checkoutEveryNms = none)
    (hN : 0 < N) (hinc : e.data.isIncremental = true)
    (hsnap : env.snapRes = some (nd, im)) :
    (emitStep s e io).incrementalSnapshotCount = s.incrementalSnapshotCount + 1 ∧
    (s.incrementalSnapshotCount + 1 < N →
      Recorder.wrappedEmit cfg env s e io = .ok (emitStep s e io)) ∧
    (s.incrementalSnapshotCount + 1 ≥ N →
      Recorder.wrappedEmit cfg env s e io =
          .ok (Recorder.takeFullSnapshot env (emitStep s e io) true) ∧
      (Recorder.takeFullSnapshot env (emitStep s e io) true).incrementalSnapshotCount
          = 0 ∧
      (Recorder.takeFullSnapshot env (emitStep s e io) true).emitted =
          s.emitted ++ [(e, io), (metaEvent env, some true),
                        (fullSnapshotEvent env nd, none)]) := by
  have hcnt := emitStep_incCount_of_incremental s e io hinc
  have hred := wrappedEmit_inc_nms_none cfg env s e io hinc hnms
  have hxc : exceedCountOf cfg (emitStep s e io) =
      decide (s.incrementalSnapshotCount + 1 ≥ N) := by
    unfold exceedCountOf
    rw [hnth, hcnt]
    simp [decide_eq_true (by omega : N ≠ 0)]
  refine ⟨hcnt, ?_, ?_⟩
  · intro hlt
    rw [hred, hxc, decide_eq_false (by omega)]
    rfl
  · intro hge
    refine ⟨?_, takeFullSnapshot_ok_incCount env _ true nd im hsnap, ?_⟩
    · rw [hred, hxc, decide_eq_true hge]
      rfl
    · rw [takeFullSnapshot_ok_emitted env (emitStep s e io) true nd im hsnap,
        emitStep_emitted]
      simp

/-- C5, witness for `c5_count_cadence` with `N = 2`: from counter 0 the
incremental event does not trigger a checkpoint, from counter 1 it does. -/
theorem c5_witness :
    Recorder.wrappedEmit cfgN2 envOK sAfterFull eMouse none =
        .ok (emitStep sAfterFull eMouse none) ∧
    (Recorder.wrappedEmit cfgN2 envOK sInc1 eMouse none =
        .ok (Recorder.takeFullSnapshot envOK (emitStep sInc1 eMouse none) true) ∧
      (Recorder.takeFullSnapshot envOK (emitStep sInc1 eMouse none) true).incrementalSnapshotCount
          = 0 ∧
      (Recorder.takeFullSnapshot envOK (emitStep sInc1 eMouse none) true).emitted =
          sInc1.emitted ++ [(eMouse, none), (metaEvent envOK, some true),
                            (fullSnapshotEvent envOK 7, none)]) :=
  ⟨(c5_count_cadence cfgN2 envOK sAfterFull eMouse none 2 7 3 rfl rfl (by decide)
      rfl rfl).2.1 (by decide),
   (c5_count_cadence cfgN2 envOK sInc1 eMouse none 2 7 3 rfl rfl (by decide)
      rfl rfl).2.2 (by decide)⟩

/-- C6: a successful checkpoint performs its primitive steps in exactly this
order — emit `Meta` with viewport and location (carrying the `isCheckout` flag),
lock every Mutation Buffer, invoke the Structural Serializer, install the fresh
Identity Registry, emit the `FullSnapshot` with node tree and scroll offset,
and only then release every lock (every buffer is unlocked at the end); the
only step that may precede them is the unfreeze-on-activity of the `Meta`
emission when the main buffer was frozen. -/
theorem c6_checkpoint_step_order (env : Env) (s : RState) (io : Bool)
    (nd im : Nat) (h : env.snapRes = some (nd, im)) :
    (Recorder.takeFullSnapshot env s io).trace =
      s.trace ++ (if headFrozen s.mutationBuffers then [Action.unfreezeAll] else [])
        ++ [Action.emit (metaEvent env) (some io), Action.lockAll,
            Action.serializeCall, Action.installMirror,
            Action.emit (fullSnapshotEvent env nd) none, Action.unlockAll] ∧
    (Recorder.takeFullSnapshot env s io).mirrorMap = im ∧
    (Recorder.takeFullSnapshot env s io).mutationBuffers.all
        (fun b => !b.locked) = true ∧
    (Recorder.takeFullSnapshot env s io).emitted =
      s.emitted ++ [(metaEvent env, some io), (fullSnapshotEvent env nd, none)] := by
  refine ⟨takeFullSnapshot_ok_trace env s io nd im h,
    takeFullSnapshot_ok_mirrorMap env s io nd im h, ?_,
    takeFullSnapshot_ok_emitted env s io nd im h⟩
  rw [takeFullSnapshot_mutationBuffers, h]
  exact all_unlocked_map_unlock _

/-- C6, witness for `c6_checkpoint_step_order` at a successful environment and
one active buffer. -/
theorem c6_witness :
    (Recorder.takeFullSnapshot envOK s0 true).trace =
      s0.trace ++ (if headFrozen s0.mutationBuffers then [Action.unfreezeAll] else [])
        ++ [Action.emit (metaEvent envOK) (some true), Action.lockAll,
            Action.serializeCall, Action.installMirror,
            Action.emit (fullSnapshotEvent envOK 7) none, Action.unlockAll] ∧
    (Recorder.takeFullSnapshot envOK s0 true).mirrorMap = 3 ∧
    (Recorder.takeFullSnapshot envOK s0 true).mutationBuffers.all
        (fun b => !b.locked) = true ∧
    (Recorder.takeFullSnapshot envOK s0 true).emitted =
      s0.emitted ++ [(metaEvent envOK, some true), (fullSnapshotEvent envOK 7, none)] :=
  c6_checkpoint_step_order envOK s0 true 7 3 rfl

/-- C7: the disposer returned by `Recorder.record` — invoke every registered
detach handler in order — is idempotent: running it a second time over the
world it produced changes nothing, because each handler's detachment is a
removal and everything it removes is already gone after the first run. -/
theorem c7_disposer_idempotent (handlers : List Nat) (w : Finset Nat) :
    Recorder.recordDisposer handlers (Recorder.recordDisposer handlers w) =
      Recorder.recordDisposer handlers w :=
  recordDisposer_eq_of_disjoint handlers _
    (fun a ha => recordDisposer_not_mem handlers a w ha)

/-- C8: the `record` entry point throws the configuration error `emit function
is required` exactly when the `emit` callback is absent from the options; when
it is present the call does not throw and proceeds to begin capture
(constructing the recorder and running its start method). -/
theorem c8_record_requires_emit (o : RecordOptions) (env : Env) :
    (recordFn o env = .error emitRequiredError ↔ o.emit = none) ∧
    (o.emit ≠ none →
      recordFn o env = .ok (Recorder.recordStart env initState)) := by
  unfold recordFn
  refine ⟨⟨?_, ?_⟩, ?_⟩
  · intro h
    by_contra hne
    rw [if_neg hne] at h
    cases h
  · intro h
    rw [if_pos h]
  · intro h
    rw [if_neg h]

/-- C8, witness for `c8_record_requires_emit` in both directions. -/
theorem c8_witness :
    recordFn { emit := none } envOK = .error emitRequiredError ∧
    recordFn { emit := some () } envOK = .ok (Recorder.recordStart envOK initState) :=
  ⟨(c8_record_requires_emit { emit := none } envOK).1.mpr rfl,
   (c8_record_requires_emit { emit := some () } envOK).2 (by decide)⟩

/-- C9, counterexample: in a session whose initial structural snapshot failed
(`recordStart` over a failing serializer), `lastFullSnapshotEvent` is still
undefined; processing the first `IncrementalSnapshot` with `checkoutEveryNms`
configured then reads `.timestamp` of `undefined` and throws, so the claimed
invariant ("a FullSnapshot has already been emitted … including in sessions
whose initial structural snapshot failed") does not hold. -/
theorem c9_counterexample :
    Recorder.wrappedEmit cfgNms envFail (Recorder.recordStart envFail initState)
      eMouse none = .error undefinedTimestampError := by rfl

/-- C9, amended: the cadence comparison is safe exactly in the sessions where a
`FullSnapshot` has already been emitted — whenever the stored
`lastFullSnapshotEvent` is defined, `wrappedEmit` never dereferences an
undefined value and returns normally for every configuration and event; in a
session whose initial structural snapshot failed the stored event is undefined
and the comparison throws. -/
theorem c9_cadence_safe_when_last_defined (cfg : RecordConfig) (env : Env)
    (s : RState) (e : EventWithTime) (io : Option Bool) (f : EventWithTime)
    (h : s.lastFullSnapshotEvent = some f) :
    exceptOk (Recorder.wrappedEmit cfg env s e io) = true := by
  unfold Recorder.wrappedEmit
  by_cases hi : e.data.isIncremental = true
  · rw [if_pos hi]
    have hET : ∃ b, exceedTimeOf cfg (emitStep s e io) e = .ok b := by
      unfold exceedTimeOf
      rcases hnms : cfg.checkoutEveryNms with _ | n <;> simp only [hnms]
      · exact ⟨false, rfl⟩
      · by_cases hn : n = 0
        · rw [if_pos hn]
          exact ⟨false, rfl⟩
        · rw [if_neg hn, emitStep_last_of_incremental s e io hi, h]
          exact ⟨_, rfl⟩
    rcases hET with ⟨b, hb⟩
    simp only [hb]
    by_cases hc : (exceedCountOf cfg (emitStep s e io) || b) = true
    · rw [if_pos hc]
      rfl
    · rw [if_neg hc]
      rfl
  · rw [if_neg hi]
    rfl

/-- C9, witness for `c9_cadence_safe_when_last_defined`: time cadence
configured, a checkpoint already recorded. -/
theorem c9_witness :
    exceptOk (Recorder.wrappedEmit cfgNms envOK sAfterFull eMouse none) = true :=
  c9_cadence_safe_when_last_defined cfgNms envOK sAfterFull eMouse none
    fullEvt0 rfl

/-- C10: if `maskAllInputs` is exactly `true`, the effective mask-input
configuration enables every input kind regardless of any `maskInputOptions`
supplied; otherwise the supplied `maskInputOptions` is used unchanged, and when
it too is undefined the empty map is used, which masks no input kind. -/
theorem c10_maskAllInputs_config (ma : Option Bool) (mio : Option MaskInputOptions) :
    (ma = some true →
      computeMaskInputOptions ma mio = allMaskInputOptions ∧
      (computeMaskInputOptions ma mio).allMasked = true) ∧
    (ma ≠ some true →
      (∀ o, mio = some o → computeMaskInputOptions ma mio = o) ∧
      (mio = none →
        computeMaskInputOptions ma mio = {} ∧
        (computeMaskInputOptions ma mio).anyMasked = false)) := by
  unfold computeMaskInputOptions
  constructor
  · intro h
    rw [if_pos h]
    exact ⟨rfl, by decide⟩
  · intro h
    rw [if_neg h]
    constructor
    · intro o ho
      rw [ho]
    · intro ho
      rw [ho]
      exact ⟨rfl, by decide⟩

/-- C10, witness for `c10_maskAllInputs_config` on all three branches. -/
theorem c10_witness :
    computeMaskInputOptions (some true) (some {}) = allMaskInputOptions ∧
    computeMaskInputOptions (some false) (some { text := true }) = { text := true } ∧
    computeMaskInputOptions none none = {} ∧
    (computeMaskInputOptions none none).anyMasked = false :=
  ⟨((c10_maskAllInputs_config (some true) (some {})).1 rfl).1,
   ((c10_maskAllInputs_config (some false) (some { text := true })).2
      (by decide)).1 _ rfl,
   (((c10_maskAllInputs_config none none).2 (by decide)).2 rfl).1,
   (((c10_maskAllInputs_config none none).2 (by decide)).2 rfl).2⟩

end RrwebRecord
